import Mathlib

/-!
Verification of the SQLAlchemy-Study repository scripts against their
natural-language specification.  The repository consists of five tutorial
scripts that sequence calls against an external relational-database library;
the library itself is not part of the repository, so its documented contract
(transactional scopes, inserts, filtered selects, updates, lazy relationship
loading, referential integrity of the backing store) is modelled from the
specification, while the operation sequences, schema declarations, literal
parameter values and predicates are translated from the source scripts.
-/

namespace SqlStudy

/-- Outcome of a transactional scope: the backing store either commits the
work of the scope or rolls it back. -/
inductive Outcome where
  | commit
  | rollback
  deriving DecidableEq, Repr

/-- Modelled from the spec: section 4.2 of the spec gives the contract of the
external library call `begin()` (`engine.begin` / `session.begin`), which is
not code under src/: it yields a scope that commits on normal exit of its
body and rolls back when the body raises.  The scope body is a function from
the store state to either a new state (normal exit) or an error (raise). -/
def beginScope {σ ε : Type} (db : σ) (body : σ → Except ε σ) : σ × Outcome :=
  match body db with
  | Except.ok db2 => (db2, Outcome.commit)
  | Except.error _ => (db, Outcome.rollback)

/-- C1: every transactional scope opened via begin() commits exactly when its
body exits normally, rolls back exactly when its body raises (leaving the
store as it was at entry), and exactly one of the two outcomes occurs. -/
theorem begin_scope_exactly_one_outcome {σ ε : Type}
    (db : σ) (body : σ → Except ε σ) :
    (∀ db2, body db = Except.ok db2 →
      beginScope db body = (db2, Outcome.commit)) ∧
    (∀ e, body db = Except.error e →
      beginScope db body = (db, Outcome.rollback)) ∧
    ((beginScope db body).2 = Outcome.commit ∨
      (beginScope db body).2 = Outcome.rollback) ∧
    ¬ ((beginScope db body).2 = Outcome.commit ∧
        (beginScope db body).2 = Outcome.rollback) := by
  refine ⟨?_, ?_, ?_, ?_⟩
  · intro db2 h
    simp [beginScope, h]
  · intro e h
    simp [beginScope, h]
  · cases h : body db <;> simp [beginScope, h]
  · rintro ⟨hc, hr⟩
    rw [hc] at hr
    exact Outcome.noConfusion hr

/-- C1 witness: the contract evaluated on a concrete store and two concrete
bodies, one exiting normally and one raising. -/
theorem begin_scope_exactly_one_outcome_witness :
    beginScope (σ := List Nat) (ε := String) [0]
        (fun s => Except.ok (1 :: s)) = ([1, 0], Outcome.commit) ∧
    beginScope (σ := List Nat) (ε := String) [0]
        (fun _ => Except.error "boom") = ([0], Outcome.rollback) := by
  constructor
  · exact (begin_scope_exactly_one_outcome [0]
      (fun s => Except.ok (1 :: s))).1 [1, 0] rfl
  · exact (begin_scope_exactly_one_outcome [0]
      (fun _ => Except.error "boom")).2.1 "boom" rfl

/-! ## The async ORM script (src/SQLAlchemy ORM/ORM Extensions/orm.py)

Mapped classes `A` (parent: primary key `id`, `data`, server-assigned
`create_date`, relationship `bs` declared `lazy="raise"`) and `B` (child:
primary key `id`, foreign key `a_id` referencing `a.id`, `data`). -/

/-- A row of table `a`, from the mapped class `A` in orm.py.  The
`create_date` column is assigned by the backing store at insert time; we
model it as the flush sequence number the store stamps on the row. -/
structure ARow where
  id : Nat
  data : String
  create_date : Nat
  deriving DecidableEq, Repr

/-- A row of table `b`, from the mapped class `B` in orm.py.  The source
constructs every `B` as `B()` with no `data` value, so the `data` attribute
is unset: modelled as `Option String` valued `none`. -/
structure BRow where
  id : Nat
  a_id : Nat
  data : Option String
  deriving DecidableEq, Repr

/-- State of the backing store holding tables `a` and `b`. -/
structure OrmStore where
  aRows : List ARow
  bRows : List BRow
  deriving DecidableEq, Repr

/-- The empty store, as produced by `Base.metadata.create_all` on a fresh
database in `async_main` of orm.py. -/
def ormEmpty : OrmStore := ⟨[], []⟩

/-- A pending parent object constructed in memory before the flush, as built
inside `insert_objects`: `A(bs=[...], data=...)`.  Each element of `bs` is a
bare `B()` constructor call, which sets no column of the child. -/
structure PendingA where
  data : String
  bs : List Unit
  deriving DecidableEq, Repr

/-- The argument of `session.add_all` in `insert_objects` of orm.py:
`A(bs=[B(), B()], data="a1"), A(bs=[], data="a2"), A(bs=[B(), B()], data="a3")`. -/
def insertObjectsAdds : List PendingA :=
  [⟨"a1", [(), ()]⟩, ⟨"a2", []⟩, ⟨"a3", [(), ()]⟩]

/-- Modelled from the spec: the flush performed by the external library at
commit of a session scope.  Each pending parent receives the next free
primary key and the store-assigned creation stamp; each of its pending
children receives the next free child key and a foreign key equal to the
primary key of its parent (the one-to-many relationship wires `a_id`). -/
def flushAdds (adds : List PendingA) (db : OrmStore) : OrmStore :=
  match adds with
  | [] => db
  | p :: rest =>
      let aid := db.aRows.length + 1
      let a : ARow := ⟨aid, p.data, db.aRows.length + db.bRows.length + 1⟩
      let db2 : OrmStore :=
        ⟨db.aRows ++ [a],
         db.bRows ++ (List.range p.bs.length).map
            (fun k => ⟨db.bRows.length + k + 1, aid, none⟩)⟩
      flushAdds rest db2

/-- The body of the `session.begin()` scope in `insert_objects` of orm.py:
add the three parents with their children, then flush at scope exit.  The
`fail` flag injects a statement failure inside the scope before the commit
completes (the spec: any statement failure aborts the enclosing scope). -/
def insertObjectsBody (fail : Bool) (db : OrmStore) : Except String OrmStore :=
  if fail then Except.error "statement failure inside scope"
  else Except.ok (flushAdds insertObjectsAdds db)

/-- `insert_objects` from orm.py: run the add-all body inside a
transactional scope opened with `session.begin()`. -/
def insertObjects (fail : Bool) (db : OrmStore) : OrmStore × Outcome :=
  beginScope db (insertObjectsBody fail)

/-- Number of rows of table `a` visible in the store whose `data` field is
one of the three values inserted by `insert_objects`. -/
def visibleInsertedParents (db : OrmStore) : Nat :=
  (db.aRows.filter (fun a => a.data = "a1" ∨ a.data = "a2" ∨ a.data = "a3")).length

/-- C2: a transactional scope that raises before completing leaves the
backing store unchanged by every statement issued inside it: a failing run
of `insert_objects` returns the store exactly as it was, and in particular
a failing run against the fresh store leaves 0 of the three parent rows
visible. -/
theorem insert_objects_rollback_atomic (db : OrmStore) :
    (insertObjects true db).1 = db ∧
    (insertObjects true db).2 = Outcome.rollback ∧
    visibleInsertedParents (insertObjects true ormEmpty).1 = 0 := by
  refine ⟨rfl, rfl, ?_⟩
  decide

/-! ## Lazy relationship traversal (orm.py, `A.bs` and `fetch_and_update_objects`) -/

/-- Loading strategy of a relationship attribute, from the `lazy=` argument
of `relationship(...)`. -/
inductive LoadStrategy where
  | raiseOnAccess
  | selectOnAccess
  deriving DecidableEq, Repr

/-- The strategy configured on `A.bs` in orm.py line 30:
`relationship(lazy="raise")`. -/
def A_bs_strategy : LoadStrategy := LoadStrategy.raiseOnAccess

/-- Modelled from the spec: attribute access on a relationship collection of
the external library.  If the collection was already loaded (eagerly, or
populated in the same session) it is returned; otherwise a deferred load is
attempted: under `lazy="raise"` the library raises instead of loading, and a
deferred load outside any open scope fails with a detached-access error
rather than silently returning empty. -/
def accessBs (strategy : LoadStrategy) (loaded : Option (List BRow))
    (inScope : Bool) (db : OrmStore) (a : ARow) : Except String (List BRow) :=
  match loaded with
  | some bs => Except.ok bs
  | none =>
      match strategy with
      | LoadStrategy.raiseOnAccess =>
          Except.error "lazy=raise prevents lazy load of A.bs"
      | LoadStrategy.selectOnAccess =>
          if inScope then
            Except.ok (db.bRows.filter (fun b => b.a_id = a.id))
          else
            Except.error "detached access: object is not bound to a session"

/-- `stmt = select(A); result = session.execute(stmt)` in
`fetch_and_update_objects` of orm.py: the select carries no eager-load
option (`selectinload` is imported but never used), so every returned
parent has its `bs` collection unloaded. -/
def selectA (db : OrmStore) : List ARow := db.aRows

/-- The loop of `fetch_and_update_objects` in orm.py: for each parent
returned by `select(A)`, iterate its `bs` collection, which triggers an
attribute access with the configured strategy, inside the open session
scope, with the collection unloaded. -/
def iterateBs (db : OrmStore) : Except String Unit :=
  (selectA db).foldlM
    (fun _ a => (accessBs A_bs_strategy none true db a).map (fun _ => ())) ()

/-- The final statements of `fetch_and_update_objects`:
`a1 = session.query(A).order_by(A.id).first(); a1.data = "new data"`. -/
def legacyUpdateFirst (db : OrmStore) : OrmStore :=
  match (db.aRows.mergeSort (fun a b => a.id ≤ b.id)) with
  | [] => db
  | first :: _ =>
      ⟨db.aRows.map (fun a => if a.id = first.id then { a with data := "new data" } else a),
       db.bRows⟩

/-- `fetch_and_update_objects` from orm.py, run inside an open session. -/
def fetchAndUpdateObjects (db : OrmStore) : Except String OrmStore := do
  let _ ← iterateBs db
  Except.ok (legacyUpdateFirst db)

/-- The store produced by a successful run of `insert_objects`. -/
def ormAfterInsert : OrmStore := (insertObjects false ormEmpty).1

/-- C5: on the store holding the three parents, iterating `a1.bs` inside the
open session of `fetch_and_update_objects` raises (the relationship is
declared `lazy="raise"`, and the select has no eager-load option), so the
function fails rather than performing the deferred load its own comment
announces; the same access outside any scope also fails rather than
returning empty. -/
theorem fetch_and_update_objects_raises_on_lazy_access :
    fetchAndUpdateObjects ormAfterInsert =
      Except.error "lazy=raise prevents lazy load of A.bs" ∧
    (∀ a ∈ selectA ormAfterInsert,
      accessBs A_bs_strategy none true ormAfterInsert a =
        Except.error "lazy=raise prevents lazy load of A.bs") ∧
    (∀ a ∈ selectA ormAfterInsert,
      accessBs LoadStrategy.selectOnAccess none false ormAfterInsert a =
        Except.error "detached access: object is not bound to a session") := by
  refine ⟨?_, ?_, ?_⟩
  · rfl
  · intro a _
    rfl
  · intro a _
    rfl

/-- C5 witness: the failing access evaluated at the first parent row
returned by the select, and at the same row outside any scope. -/
theorem fetch_and_update_objects_raises_on_lazy_access_witness :
    accessBs A_bs_strategy none true ormAfterInsert ⟨1, "a1", 1⟩ =
      Except.error "lazy=raise prevents lazy load of A.bs" ∧
    accessBs LoadStrategy.selectOnAccess none false ormAfterInsert ⟨1, "a1", 1⟩ =
      Except.error "detached access: object is not bound to a session" :=
  ⟨fetch_and_update_objects_raises_on_lazy_access.2.1 ⟨1, "a1", 1⟩ (by decide),
   fetch_and_update_objects_raises_on_lazy_access.2.2 ⟨1, "a1", 1⟩ (by decide)⟩

/-- Referential integrity of the store: every child row references, through
a non-null foreign key, the primary key of a parent row present in the
store. -/
def ormFkOk (db : OrmStore) : Prop :=
  ∀ b ∈ db.bRows, ∃ a ∈ db.aRows, b.a_id = a.id

instance (db : OrmStore) : Decidable (ormFkOk db) := by
  unfold ormFkOk
  infer_instance

/-! ## Name resolution in `async_main` of orm.py -/

/-- The names defined at the top level of the module orm.py. -/
def ormModuleNames : List String :=
  ["Base", "A", "B", "insert_objects", "fetch_and_update_objects", "async_main"]

/-- One step of the body of `async_main` in orm.py lines 74-90. -/
inductive MainStep where
  | createEngine
  | makeSessionFactory
  | createSchema
  | awaitCall (fname : String)
  | disposeEngine
  deriving DecidableEq, Repr

/-- The sequence of steps of `async_main` in orm.py: create the engine,
build the session factory, create the schema inside `engine.begin()`, await
`insert_objects`, await the name `select_and_update_objects`, dispose the
engine. -/
def asyncMainSteps : List MainStep :=
  [MainStep.createEngine, MainStep.makeSessionFactory, MainStep.createSchema,
   MainStep.awaitCall "insert_objects",
   MainStep.awaitCall "select_and_update_objects",
   MainStep.disposeEngine]

/-- Whether a function name used in `async_main` resolves against the
module's defined names (names in a function body are resolved when the
call executes). -/
def resolvesName (n : String) : Bool := ormModuleNames.contains n

/-- Run a step sequence: steps execute in order until a call step names an
unresolvable function, which stops the run with that name as the error;
the failing step itself is not executed. -/
def runMain : List MainStep → List MainStep × Option String
  | [] => ([], none)
  | s :: rest =>
      match s with
      | MainStep.awaitCall n =>
          if resolvesName n then
            let r := runMain rest
            (s :: r.1, r.2)
          else ([], some n)
      | _ =>
          let r := runMain rest
          (s :: r.1, r.2)

/-- C8: the run of `async_main` executes up to and including
`insert_objects`, then halts with a name-resolution error on
`select_and_update_objects` (which no top-level definition of the module
provides, the defined helper being `fetch_and_update_objects`), so the
engine-dispose step is never executed. -/
theorem async_main_never_reaches_select_and_update :
    runMain asyncMainSteps =
      ([MainStep.createEngine, MainStep.makeSessionFactory,
        MainStep.createSchema, MainStep.awaitCall "insert_objects"],
        some "select_and_update_objects") ∧
    MainStep.disposeEngine ∉ (runMain asyncMainSteps).1 ∧
    resolvesName "select_and_update_objects" = false ∧
    resolvesName "fetch_and_update_objects" = true := by
  refine ⟨?_, ?_, ?_, ?_⟩ <;> decide

/-! ## Mapped classes of the unified tutorial
(src/SQLAlchemy Unified Tutorial/working_with_database_metadata/declaring_mapped_classes.py)
and the core insert script (src/unified_tutorial/working_with_data/inserting_rows_with_core.py).

The insert script imports its mapped classes from a module `mapped_classes`
that is not under src/; the shapes below follow the `User`/`Address`
declarations of declaring_mapped_classes.py, which the spec describes as the
Parent/Child pair of this tutorial. -/

/-- A row of table `user_account`: primary key `id`, `name`, `fullname`. -/
structure UserRow where
  id : Nat
  name : String
  fullname : String
  deriving DecidableEq, Repr

/-- A row of table `address`: primary key `id`, nullable foreign key
`user_id` referencing `user_account.id`, non-null `email_address`. -/
structure AddressRow where
  id : Nat
  user_id : Option Nat
  email_address : String
  deriving DecidableEq, Repr

/-- State of the backing store holding the two tutorial tables. -/
structure TutorialStore where
  users : List UserRow
  addresses : List AddressRow
  deriving DecidableEq, Repr

/-- Insert users, assigning primary keys sequentially from the backing
store (the scripts never supply `id`; `result.inserted_primary_key` is read
from the store). -/
def insertUsers (vals : List (String × String)) (db : TutorialStore) :
    TutorialStore :=
  ⟨db.users ++ vals.enum.map
      (fun v => ⟨db.users.length + v.1 + 1, v.2.1, v.2.2⟩),
   db.addresses⟩

/-- `scalar_subq` from inserting_rows_with_core.py lines 24-26:
`select(User.id).where(User.name == bindparam("username")).scalar_subquery()`
— for a bound `username`, the id of a matching user, or NULL when none
matches. -/
def scalar_subq (db : TutorialStore) (username : String) : Option Nat :=
  ((db.users.filter (fun u => u.name = username)).map (fun u => u.id)).head?

/-- Insert addresses whose `user_id` comes from `scalar_subq` evaluated at
each parameter set's `username`, as in the third `engine.begin()` block of
inserting_rows_with_core.py. -/
def insertAddresses (vals : List (String × String)) (db : TutorialStore) :
    TutorialStore :=
  ⟨db.users,
   db.addresses ++ vals.enum.map
      (fun v => ⟨db.addresses.length + v.1 + 1, scalar_subq db v.2.1, v.2.2⟩)⟩

/-- Store after the first `engine.begin()` commit of
inserting_rows_with_core.py: `insert(User).values(name="spongebob",
fullname="Spongebob Squarepants")`. -/
def coreStore1 : TutorialStore :=
  insertUsers [("spongebob", "Spongebob Squarepants")] ⟨[], []⟩

/-- Store after the second commit: executemany insert of sandy and patrick. -/
def coreStore2 : TutorialStore :=
  insertUsers [("sandy", "Sandy Cheeks"), ("patrick", "Patrick Star")] coreStore1

/-- Store after the third commit: `insert(Address).values(user_id=scalar_subq)`
with the three username/email parameter sets. -/
def coreStore3 : TutorialStore :=
  insertAddresses
    [("spongebob", "spongebob@sqlalchemy.org"),
     ("sandy", "sandy@sqlalchemy.org"),
     ("sandy", "sandy@squirrelpower.org")] coreStore2

/-- Referential integrity of the tutorial store: every address row carries a
non-null `user_id` equal to the primary key of a user row present in the
store. -/
def tutorialFkOk (db : TutorialStore) : Prop :=
  ∀ ad ∈ db.addresses, ∃ u ∈ db.users, ad.user_id = some u.id

instance (db : TutorialStore) : Decidable (tutorialFkOk db) := by
  unfold tutorialFkOk
  infer_instance

/-- C7: after every commit of these scripts, each committed child row
references exactly one existing parent through a non-null foreign key: the
`b` rows flushed by `insert_objects` all reference an `a` row present in
the store, and the address rows of the core insert script all reference a
user row present in the store, at every commit point. -/
theorem children_reference_existing_parents :
    ormFkOk ormAfterInsert ∧
    ormFkOk ormEmpty ∧
    tutorialFkOk coreStore1 ∧
    tutorialFkOk coreStore2 ∧
    tutorialFkOk coreStore3 := by
  refine ⟨?_, ?_, ?_, ?_, ?_⟩ <;> decide

/-! ## Raw-SQL transactions script
(src/SQLAlchemy Unified Tutorial/working_with_database_metadata/working_with_transactions_and_the_dbapi.py):
`CREATE TABLE some_table (x int, y int)`, two insert blocks, a filtered
select, and an update-by-predicate. -/

/-- A row of `some_table`, two integer columns `x` and `y`. -/
structure SomeRow where
  x : Int
  y : Int
  deriving DecidableEq, Repr

/-- Parameter sets of the insert in the commit-as-you-go block, lines 13-16. -/
def commitAsYouGoInserts : List SomeRow := [⟨1, 1⟩, ⟨2, 4⟩]

/-- Parameter sets of the insert in the `engine.begin()` block, lines 20-23. -/
def beginOnceInserts : List SomeRow := [⟨6, 8⟩, ⟨9, 10⟩]

/-- Contents of `some_table` after both insert blocks ran against the empty
table. -/
def someTableRows : List SomeRow := commitAsYouGoInserts ++ beginOnceInserts

/-- `SELECT x, y FROM some_table WHERE y > :y` evaluated with bound
parameter `t`, over a storage order of the table. -/
def selectWhereYgt (t : Int) (rows : List SomeRow) : List SomeRow :=
  rows.filter (fun r => t < r.y)

/-- Insert a row into a list sorted by the given order (the sort used to
realize ORDER BY). -/
def insertSorted (le : SomeRow → SomeRow → Bool) (r : SomeRow) :
    List SomeRow → List SomeRow
  | [] => [r]
  | s :: rest => if le r s then r :: s :: rest else s :: insertSorted le r rest

/-- Sort rows by the given order. -/
def orderBy (le : SomeRow → SomeRow → Bool) (rows : List SomeRow) :
    List SomeRow :=
  rows.foldr (insertSorted le) []

/-- The `ORDER BY x, y` variant of the select, lines 31-35. -/
def selectWhereYgtOrdered (t : Int) (rows : List SomeRow) : List SomeRow :=
  orderBy (fun a b => a.x < b.x ∨ (a.x = b.x ∧ a.y ≤ b.y)) (selectWhereYgt t rows)

/-- C4: over any storage order of the four inserted rows, the select with
predicate `y > 2` returns exactly the inserted rows whose `y` exceeds 2 —
(2,4), (6,8), (9,10) — as a multiset, with no guaranteed order; the
`ORDER BY x, y` variant returns exactly that list sorted. -/
theorem select_y_gt_2_exact (rows : List SomeRow)
    (h : rows.Perm someTableRows) :
    (selectWhereYgt 2 rows).Perm [⟨2, 4⟩, ⟨6, 8⟩, ⟨9, 10⟩] ∧
    (∀ r ∈ selectWhereYgt 2 rows, r ∈ rows ∧ 2 < r.y) ∧
    (∀ r ∈ rows, 2 < r.y → r ∈ selectWhereYgt 2 rows) ∧
    selectWhereYgtOrdered 2 someTableRows = [⟨2, 4⟩, ⟨6, 8⟩, ⟨9, 10⟩] := by
  refine ⟨?_, ?_, ?_, by decide⟩
  · have h2 : selectWhereYgt 2 someTableRows = [⟨2, 4⟩, ⟨6, 8⟩, ⟨9, 10⟩] := rfl
    exact h2 ▸ List.Perm.filter _ h
  · intro r hr
    exact ⟨List.mem_of_mem_filter hr,
      by simpa using List.of_mem_filter hr⟩
  · intro r hr hy
    exact List.mem_filter.2 ⟨hr, by simpa using hy⟩

/-- C4 witness: the select evaluated at the storage order in which the two
insert blocks committed the rows. -/
theorem select_y_gt_2_exact_witness :
    (selectWhereYgt 2 someTableRows).Perm [⟨2, 4⟩, ⟨6, 8⟩, ⟨9, 10⟩] :=
  (select_y_gt_2_exact someTableRows (List.Perm.refl _)).1

/-- `UPDATE some_table SET y = :y WHERE x = :x` evaluated with one bound
parameter set. -/
def updateWhereX (xv yv : Int) (rows : List SomeRow) : List SomeRow :=
  rows.map (fun r => if r.x = xv then { r with y := yv } else r)

/-- The update statement of lines 38-41, executed with its two parameter
sets in order and then committed by `session.commit()`. -/
def updateScript (rows : List SomeRow) : List SomeRow :=
  updateWhereX 12 16 (updateWhereX 11 15 rows)

/-- C6: after the update-by-predicate script commits, re-reading any row
matched by either predicate reflects the new `y` value: every row of the
resulting table with `x = 11` has `y = 15` and every row with `x = 12` has
`y = 16`, whatever the prior contents of the table. -/
theorem update_by_predicate_visible (rows : List SomeRow)
    (r : SomeRow) (hr : r ∈ updateScript rows) :
    (r.x = 11 → r.y = 15) ∧ (r.x = 12 → r.y = 16) := by
  rcases List.mem_map.1 hr with ⟨r1, hr1, hmap2⟩
  rcases List.mem_map.1 hr1 with ⟨r0, -, hmap1⟩
  subst hmap2
  subst hmap1
  by_cases h0 : r0.x = 11 <;> by_cases h1 : r0.x = 12
  · exact absurd h1 (by omega)
  · simp [h0, h1]
  · simp [h0, h1]
  · simp [h0, h1]

/-- C6 witness: the update evaluated on a table holding one row matched by
each predicate; re-reading both rows shows the new values. -/
theorem update_by_predicate_visible_witness :
    ((⟨11, 15⟩ : SomeRow).x = 11 → ((⟨11, 15⟩ : SomeRow)).y = 15) ∧
    ((⟨11, 15⟩ : SomeRow).x = 12 → ((⟨11, 15⟩ : SomeRow)).y = 16) :=
  update_by_predicate_visible [⟨11, 0⟩, ⟨12, 0⟩] ⟨11, 15⟩ (by decide)

/-! ## The async core script (src/orm/orm_extensions/core.py):
table `t1` with single primary-key column `name`, a two-row insert, and a
select by primary key. -/

/-- Execute `t1.insert()` with a list of `name` parameter sets against the
rows of table `t1`. -/
def t1Insert (names : List String) (db : List String) : List String :=
  db ++ names

/-- `select(t1).where(t1.c.name == n)`: fetch the rows of `t1` whose
primary-key column `name` equals the bound value. -/
def t1SelectByPk (db : List String) (n : String) : List String :=
  db.filter (fun r => r = n)

/-- C3: every entity inserted and then re-fetched by its primary key within
the same store comes back with the inserted field values: inserting
pairwise-distinct names into the empty table `t1` and selecting by any one
of them returns exactly that value. -/
theorem insert_then_fetch_roundtrip (names : List String) (h : names.Nodup)
    (n : String) (hn : n ∈ names) :
    t1SelectByPk (t1Insert names []) n = [n] := by
  induction names with
  | nil => cases hn
  | cons a rest ih =>
      rcases List.mem_cons.1 hn with rfl | hmem
      · have hnotin : n ∉ rest := (List.nodup_cons.1 h).1
        simp only [t1SelectByPk, t1Insert, List.nil_append, List.filter_cons,
          decide_eq_true_eq]
        rw [if_pos trivial]
        have : rest.filter (fun r => decide (r = n)) = [] := by
          rw [List.filter_eq_nil_iff]
          intro b hb
          simp only [decide_eq_true_eq]
          exact fun hbn => hnotin (hbn ▸ hb)
        rw [this]
      · have ha : a ∉ rest := (List.nodup_cons.1 h).1
        have hne : ¬ (a = n) := fun hcontra => ha (hcontra ▸ hmem)
        have ihr := ih (List.nodup_cons.1 h).2 hmem
        simp only [t1SelectByPk, t1Insert, List.nil_append, List.filter_cons] at ihr ⊢
        rw [if_neg (by simpa using hne)]
        exact ihr

/-- C3 witness: the round trip evaluated at the exact parameter sets of the
insert in core.py (`some name 1`, `some name 2`) and the select on each. -/
theorem insert_then_fetch_roundtrip_witness :
    t1SelectByPk (t1Insert ["some name 1", "some name 2"] []) "some name 1" =
      ["some name 1"] ∧
    t1SelectByPk (t1Insert ["some name 1", "some name 2"] []) "some name 2" =
      ["some name 2"] :=
  ⟨insert_then_fetch_roundtrip ["some name 1", "some name 2"] (by decide)
      "some name 1" (by decide),
   insert_then_fetch_roundtrip ["some name 1", "some name 2"] (by decide)
      "some name 2" (by decide)⟩

/-! ## The full run of `async_main` in core.py (lines 10-27). -/

/-- Backing-store state of the async core script: created tables and the
rows of `t1`. -/
structure CoreDb where
  tables : List String
  t1Rows : List String
  deriving DecidableEq, Repr

/-- Observable effects of the script against the store. -/
inductive CoreEffect where
  | createTables
  | insertRows
  | selectRows
  | dispose
  deriving DecidableEq, Repr

/-- The engine bound to the module-level `meta = MetaData()` in core.py
line 6: a `MetaData` is constructed with no engine. -/
def metaBound : Option String := none

/-- Modelled from the spec: calling `create_all()` on a metadata object with
no bound engine raises instead of returning schema DDL; core.py line 16
evaluates `meta.create_all()` eagerly (its result, not the callable, is
what gets passed to `conn.run_sync`). -/
def metaCreateAllCall (bound : Option String) : Except String Unit :=
  match bound with
  | some _ => Except.ok ()
  | none => Except.error "meta.create_all() called with no bound engine"

/-- The schema-creation effect `run_sync` would perform for `meta`, had it
been handed the callable: create table `t1`. -/
def runSyncCreateTables (db : CoreDb) : CoreDb :=
  { db with tables := db.tables ++ ["t1"] }

/-- The body of the `engine.begin()` scope in core.py lines 15-20: evaluate
`meta.create_all()` eagerly, hand the schema step to `run_sync`, then
execute the two-row insert into `t1`.  Returns the new store and the
effects the body executed. -/
def coreBeginBody (db : CoreDb) : Except String (CoreDb × List CoreEffect) := do
  let _ ← metaCreateAllCall metaBound
  let db1 := runSyncCreateTables db
  let db2 := { db1 with t1Rows := t1Insert ["some name 1", "some name 2"] db1.t1Rows }
  Except.ok (db2, [CoreEffect.createTables, CoreEffect.insertRows])

/-- The full run of `async_main` in core.py: the `engine.begin()` scope,
then (only if it exited normally) the `engine.connect()` block issuing the
select and the final `engine.dispose()`.  Returns the final store, the
executed effects, and the propagated error if any. -/
def coreAsyncMain : CoreDb × List CoreEffect × Option String :=
  match coreBeginBody ⟨[], []⟩ with
  | Except.error e => (⟨[], []⟩, [], some e)
  | Except.ok (db2, tr) =>
      (db2, tr ++ [CoreEffect.selectRows, CoreEffect.dispose], none)

/-- C9: the schema-creation step of the async core script fails rather than
creating table `t1`: the eager `meta.create_all()` call raises (the
metadata has no bound engine), the `engine.begin()` scope rolls back with
the store unchanged, and neither the inserts nor the select against `t1`
is ever executed — the final store has no `t1` table and no rows. -/
theorem core_async_main_schema_step_fails :
    metaCreateAllCall metaBound =
      Except.error "meta.create_all() called with no bound engine" ∧
    beginScope (⟨[], []⟩ : CoreDb)
        (fun db => (coreBeginBody db).map (fun p => p.1)) =
      (⟨[], []⟩, Outcome.rollback) ∧
    coreAsyncMain =
      (⟨[], []⟩, [], some "meta.create_all() called with no bound engine") ∧
    CoreEffect.insertRows ∉ coreAsyncMain.2.1 ∧
    CoreEffect.selectRows ∉ coreAsyncMain.2.1 ∧
    coreAsyncMain.1.tables = [] := by
  refine ⟨rfl, rfl, rfl, ?_, ?_, rfl⟩ <;> decide

/-! ## The schema-declaration script (declaring_mapped_classes.py lines
31-32): `metadata.create_all(engine)` immediately followed by
`metadata.drop_all(engine)`. -/

/-- Tables declared by the mapped classes `User` and `Address`. -/
def declaredTables : List String := ["user_account", "address"]

/-- `metadata.create_all(engine)`: create each declared table missing from
the store. -/
def createAllTables (decl store : List String) : List String :=
  store ++ decl.filter (fun t => !(store.contains t))

/-- `metadata.drop_all(engine)`: drop each declared table from the store. -/
def dropAllTables (decl store : List String) : List String :=
  store.filter (fun t => !(decl.contains t))

/-- The tables present after the schema-declaration script ran to
completion: create_all on lines 31 then drop_all on line 32. -/
def declaringScriptFinalTables : List String :=
  dropAllTables declaredTables (createAllTables declaredTables [])

/-- C10: after the schema-declaration script runs to completion the backing
store contains none of the declared tables — neither `user_account` nor
`address` survives, since `drop_all` immediately follows `create_all`. -/
theorem declaring_script_leaves_no_tables :
    declaringScriptFinalTables = [] ∧
    "user_account" ∉ declaringScriptFinalTables ∧
    "address" ∉ declaringScriptFinalTables := by
  refine ⟨rfl, ?_, ?_⟩ <;> decide

end SqlStudy
